import Mathlib

/-!
Verification development for the SportsWorldCentral (SWC) fantasy-football
read-only API and its client SDK.

The development shallowly embeds:
* the Filter-Query Layer (`crud`-style functions; the crud module itself is
  not part of the given sources, so those functions are modelled from the
  specification, as marked on each definition);
* the HTTP Route Layer of `chapter6/main.py` (`read_players`, `read_player`,
  `read_performances`, `read_leagues`, `read_teams`, `get_count`);
* the client SDK of `chapter7/sdk/src/swcpy/swc_client.py` (`SWCClient`):
  parameter stripping in `call_api`, the backoff retry wrapper installed in
  `__init__`, bulk-file URL construction and download, by-id lookups and the
  `get_counts` method including its Python name resolution.

Dates are modelled as natural numbers (days on the usual total order of
`datetime.date`); byte strings as `List Nat`.
-/

/-- A date, modelled as a natural number of days; `datetime.date` is a
totally ordered type and only its order is used by the code. -/
abbrev SWCDate := Nat

/-- Row of the player table, with the wire-format field names. -/
structure Player where
  player_id : Nat
  first_name : String
  last_name : String
  last_changed_date : SWCDate
deriving DecidableEq, Repr

/-- Row of the team table. -/
structure Team where
  team_id : Nat
  team_name : String
  league_id : Nat
  last_changed_date : SWCDate
deriving DecidableEq, Repr

/-- Row of the league table. -/
structure League where
  league_id : Nat
  league_name : String
  scoring_type : String
  last_changed_date : SWCDate
deriving DecidableEq, Repr

/-- Row of the performance table. -/
structure Performance where
  performance_id : Nat
  player_id : Nat
  week_number : Nat
  fantasy_points : Int
  last_changed_date : SWCDate
deriving DecidableEq, Repr

/-- The `schemas.Counts` response object of the counts endpoint. -/
structure Counts where
  league_count : Nat
  team_count : Nat
  player_count : Nat
deriving DecidableEq, Repr

/-- The database: four independent collections of rows, each kept in its
deterministic storage order (primary key ascending in the real store).
The system is read-only, so a value of this type is fixed across calls. -/
structure Database where
  players : List Player
  teams : List Team
  leagues : List League
  performances : List Performance
deriving Repr

/-- Offset/limit pagination over an ordered row list: drop the first `skip`
rows, then return at most `limit` rows. -/
def paginate (rows : List α) (skip limit : Nat) : List α :=
  (rows.drop skip).take limit

/-- Apply an optional equality/range filter: when the parameter is unset
(`Option.none`) the rows pass unchanged; when set, only rows satisfying the
predicate for the given value remain. -/
def optFilter (param : Option β) (pred : β → α → Bool) (rows : List α) : List α :=
  match param with
  | Option.none => rows
  | Option.some v => rows.filter (pred v)

/-- Modelled from the spec: the filter stage of `crud.get_players` (the crud
module is not among the given source files; only its callers in `main.py` and
its tests in `test_crud.py` are). Per spec section 4.1 the optional filters
are an inclusive minimum last-changed date and exact-match first/last name;
each is applied only when set, in chain, to the deterministically ordered
player collection. -/
def playersFiltered (db : Database) (min_last_changed_date : Option SWCDate)
    (first_name last_name : Option String) : List Player :=
  let rows := db.players
  let rows := optFilter min_last_changed_date
    (fun d p => decide (d ≤ p.last_changed_date)) rows
  let rows := optFilter first_name (fun v p => p.first_name == v) rows
  optFilter last_name (fun v p => p.last_name == v) rows

/-- Modelled from the spec: `crud.get_players` applies the optional filters,
then `skip`/`limit` (filters before pagination). -/
def get_players (db : Database) (skip limit : Nat)
    (min_last_changed_date : Option SWCDate)
    (first_name last_name : Option String) : List Player :=
  paginate (playersFiltered db min_last_changed_date first_name last_name)
    skip limit

/-- Modelled from the spec: `crud.get_player` (by-id lookup) is not among the
given source files. Per spec section 4.1 it returns exactly one row or a
"not found" signal; the first row with the given unique id is returned. -/
def get_player (db : Database) (player_id : Nat) : Option Player :=
  db.players.find? (fun p => p.player_id == player_id)

/-- Modelled from the spec: the filter stage of `crud.get_performances` (not
among the given source files). Per spec section 4.1, performances have no
extra filters beyond the inclusive minimum last-changed date. -/
def performancesFiltered (db : Database)
    (min_last_changed_date : Option SWCDate) : List Performance :=
  optFilter min_last_changed_date
    (fun d p => decide (d ≤ p.last_changed_date)) db.performances

/-- Modelled from the spec: `crud.get_performances` applies the optional date
filter, then `skip`/`limit`. -/
def get_performances (db : Database) (skip limit : Nat)
    (min_last_changed_date : Option SWCDate) : List Performance :=
  paginate (performancesFiltered db min_last_changed_date) skip limit

/-- Modelled from the spec: the filter stage of `crud.get_leagues` (not among
the given source files). Filters: inclusive minimum last-changed date,
exact-match league name. -/
def leaguesFiltered (db : Database) (min_last_changed_date : Option SWCDate)
    (league_name : Option String) : List League :=
  let rows := db.leagues
  let rows := optFilter min_last_changed_date
    (fun d l => decide (d ≤ l.last_changed_date)) rows
  optFilter league_name (fun v l => l.league_name == v) rows

/-- Modelled from the spec: `crud.get_leagues` applies the optional filters,
then `skip`/`limit`. -/
def get_leagues (db : Database) (skip limit : Nat)
    (min_last_changed_date : Option SWCDate)
    (league_name : Option String) : List League :=
  paginate (leaguesFiltered db min_last_changed_date league_name) skip limit

/-- Modelled from the spec: `crud.get_league` (by-id lookup) is not among the
given source files. -/
def get_league (db : Database) (league_id : Nat) : Option League :=
  db.leagues.find? (fun l => l.league_id == league_id)

/-- Modelled from the spec: the filter stage of `crud.get_teams` (not among
the given source files). Filters: inclusive minimum last-changed date,
exact-match team name, exact-match league id. -/
def teamsFiltered (db : Database) (min_last_changed_date : Option SWCDate)
    (team_name : Option String) (league_id : Option Nat) : List Team :=
  let rows := db.teams
  let rows := optFilter min_last_changed_date
    (fun d t => decide (d ≤ t.last_changed_date)) rows
  let rows := optFilter team_name (fun v t => t.team_name == v) rows
  optFilter league_id (fun v t => t.league_id == v) rows

/-- Modelled from the spec: `crud.get_teams` applies the optional filters,
then `skip`/`limit`. -/
def get_teams (db : Database) (skip limit : Nat)
    (min_last_changed_date : Option SWCDate)
    (team_name : Option String) (league_id : Option Nat) : List Team :=
  paginate (teamsFiltered db min_last_changed_date team_name league_id)
    skip limit

/-- Modelled from the spec: `crud.get_league_count` is not among the given
source files. Per spec section 4.1 the count operation returns the total
number of rows of the collection, ignoring all filters. -/
def get_league_count (db : Database) : Nat := db.leagues.length

/-- Modelled from the spec: `crud.get_team_count` is not among the given
source files; total number of team rows, ignoring all filters. -/
def get_team_count (db : Database) : Nat := db.teams.length

/-- Modelled from the spec: `crud.get_player_count` is not among the given
source files; total number of player rows, ignoring all filters. -/
def get_player_count (db : Database) : Nat := db.players.length

/-! ## HTTP Route Layer (src/chapter6/main.py) -/

/-- FastAPI HTTPException as raised by the by-id routes. -/
structure HTTPException where
  status_code : Nat
  detail : String
deriving DecidableEq, Repr

/-- Route GET /v0/players/ (main.py read_players). Query parameter defaults
are skip = 0 and limit = 100; the optional filters default to None (absent),
modelled as Option.none. The body passes every parameter through to
crud.get_players. -/
def read_players (skip limit : Nat)
    (minimum_last_changed_date : Option SWCDate)
    (first_name last_name : Option String) (db : Database) : List Player :=
  get_players db skip limit minimum_last_changed_date first_name last_name

/-- Route GET /v0/players/{player_id} (main.py read_player): raises
HTTPException 404 "Player not found" when crud.get_player returns None. -/
def read_player (player_id : Nat) (db : Database) :
    Except HTTPException Player :=
  match get_player db player_id with
  | Option.none => Except.error ⟨404, "Player not found"⟩
  | Option.some p => Except.ok p

/-- Route GET /v0/performances/ (main.py read_performances). -/
def read_performances (skip limit : Nat)
    (minimum_last_changed_date : Option SWCDate) (db : Database) :
    List Performance :=
  get_performances db skip limit minimum_last_changed_date

/-- Route GET /v0/leagues/{league_id} (main.py read_league): raises
HTTPException 404 "League not found" when crud.get_league returns None. -/
def read_league (league_id : Nat) (db : Database) :
    Except HTTPException League :=
  match get_league db league_id with
  | Option.none => Except.error ⟨404, "League not found"⟩
  | Option.some l => Except.ok l

/-- Route GET /v0/leagues/ (main.py read_leagues). -/
def read_leagues (skip limit : Nat)
    (minimum_last_changed_date : Option SWCDate)
    (league_name : Option String) (db : Database) : List League :=
  get_leagues db skip limit minimum_last_changed_date league_name

/-- Route GET /v0/teams/ (main.py read_teams). -/
def read_teams (skip limit : Nat)
    (minimum_last_changed_date : Option SWCDate)
    (team_name : Option String) (league_id : Option Nat) (db : Database) :
    List Team :=
  get_teams db skip limit minimum_last_changed_date team_name league_id

/-- Route GET /v0/counts/ (main.py get_count): builds a Counts object from
the three crud count functions; it takes no filter parameters. -/
def get_count (db : Database) : Counts :=
  ⟨get_league_count db, get_team_count db, get_player_count db⟩

/-- Optional query parameters of GET /v0/players/ as they arrive in the HTTP
request: a parameter absent from the query string is Option.none, exactly as
FastAPI resolves a parameter declared with default Query(None). -/
structure PlayersQueryParams where
  skip : Option Nat
  limit : Option Nat
  minimum_last_changed_date : Option SWCDate
  first_name : Option String
  last_name : Option String

/-- Optional query parameters of GET /v0/teams/ as they arrive in the HTTP
request. -/
structure TeamsQueryParams where
  skip : Option Nat
  limit : Option Nat
  minimum_last_changed_date : Option SWCDate
  team_name : Option String
  league_id : Option Nat

/-- Dispatch of an HTTP request to the players route: absent skip/limit fall
back to the declared defaults 0 and 100; absent optional filters stay absent
(Option.none) and are never replaced by an empty string or zero. -/
def handle_players_request (q : PlayersQueryParams) (db : Database) :
    List Player :=
  read_players (q.skip.getD 0) (q.limit.getD 100)
    q.minimum_last_changed_date q.first_name q.last_name db

/-- Dispatch of an HTTP request to the teams route. -/
def handle_teams_request (q : TeamsQueryParams) (db : Database) :
    List Team :=
  read_teams (q.skip.getD 0) (q.limit.getD 100)
    q.minimum_last_changed_date q.team_name q.league_id db

/-- Optional query parameters of GET /v0/leagues/ as they arrive in the
HTTP request. -/
structure LeaguesQueryParams where
  skip : Option Nat
  limit : Option Nat
  minimum_last_changed_date : Option SWCDate
  league_name : Option String

/-- Optional query parameters of GET /v0/performances/ as they arrive in
the HTTP request. -/
structure PerformancesQueryParams where
  skip : Option Nat
  limit : Option Nat
  minimum_last_changed_date : Option SWCDate

/-- Dispatch of an HTTP request to the leagues route. -/
def handle_leagues_request (q : LeaguesQueryParams) (db : Database) :
    List League :=
  read_leagues (q.skip.getD 0) (q.limit.getD 100)
    q.minimum_last_changed_date q.league_name db

/-- Dispatch of an HTTP request to the performances route. -/
def handle_performances_request (q : PerformancesQueryParams)
    (db : Database) : List Performance :=
  read_performances (q.skip.getD 0) (q.limit.getD 100)
    q.minimum_last_changed_date db

/-! ## JSON wire format and Data Transfer Schemas -/

/-- JSON values as exchanged on the wire. -/
inductive JsonValue where
  | jnull
  | jnum (n : Int)
  | jstr (s : String)
  | jobj (fields : List (String × JsonValue))
  | jarr (elems : List JsonValue)
deriving Repr

/-- Field lookup in a JSON object; anything other than an object has no
fields. -/
def jsonLookup (j : JsonValue) (key : String) : Option JsonValue :=
  match j with
  | JsonValue.jobj fields => fields.lookup key
  | _ => Option.none

/-- A pydantic-style validation failure naming the offending field. -/
inductive ValidationError where
  | validation_error (field : String)
deriving DecidableEq, Repr

/-- Modelled from the spec: the Data Transfer Schemas module (schemas.py) is
not among the given source files. Reading a required non-negative integer
field; anything else fails validation. -/
def requireNat (j : JsonValue) (key : String) :
    Except ValidationError Nat :=
  match jsonLookup j key with
  | Option.some (JsonValue.jnum (Int.ofNat n)) => Except.ok n
  | _ => Except.error (ValidationError.validation_error key)

/-- Modelled from the spec: reading a required string field of a Data
Transfer Schema object. -/
def requireStr (j : JsonValue) (key : String) :
    Except ValidationError String :=
  match jsonLookup j key with
  | Option.some (JsonValue.jstr s) => Except.ok s
  | _ => Except.error (ValidationError.validation_error key)

/-- Modelled from the spec: construction of a schemas.Player from a JSON
object (pydantic Player(**fields)); validates the wire-format fields of spec
section 6 and fails with a ValidationError on the first mismatch. -/
def parsePlayer (j : JsonValue) : Except ValidationError Player := do
  let pid ← requireNat j "player_id"
  let fn ← requireStr j "first_name"
  let ln ← requireStr j "last_name"
  let lc ← requireNat j "last_changed_date"
  Except.ok ⟨pid, fn, ln, lc⟩

/-- Modelled from the spec: construction of a schemas.League from a JSON
object. -/
def parseLeague (j : JsonValue) : Except ValidationError League := do
  let lid ← requireNat j "league_id"
  let ln ← requireStr j "league_name"
  let st ← requireStr j "scoring_type"
  let lc ← requireNat j "last_changed_date"
  Except.ok ⟨lid, ln, st, lc⟩

/-- Modelled from the spec: construction of a schemas.Counts from a JSON
object. -/
def parseCounts (j : JsonValue) : Except ValidationError Counts := do
  let lc ← requireNat j "league_count"
  let tc ← requireNat j "team_count"
  let pc ← requireNat j "player_count"
  Except.ok ⟨lc, tc, pc⟩

/-- Wire serialization of a Player row (response_model=schemas.Player). -/
def playerToJson (p : Player) : JsonValue :=
  JsonValue.jobj
    [("player_id", JsonValue.jnum p.player_id),
     ("first_name", JsonValue.jstr p.first_name),
     ("last_name", JsonValue.jstr p.last_name),
     ("last_changed_date", JsonValue.jnum p.last_changed_date)]

/-- Wire serialization of a League row (response_model=schemas.League). -/
def leagueToJson (l : League) : JsonValue :=
  JsonValue.jobj
    [("league_id", JsonValue.jnum l.league_id),
     ("league_name", JsonValue.jstr l.league_name),
     ("scoring_type", JsonValue.jstr l.scoring_type),
     ("last_changed_date", JsonValue.jnum l.last_changed_date)]

/-- An HTTP response: status code, raw body bytes, and the JSON value the
body decodes to (httpx Response.content and Response.json()). -/
structure HttpResponse where
  status_code : Nat
  content : List Nat
  json : JsonValue

/-- Wire response of GET /v0/players/{player_id}: a found player serializes
with status 200; a raised HTTPException serializes with its status code and
a JSON body carrying a detail field, which is how FastAPI encodes it. -/
def playerRouteResponse (player_id : Nat) (db : Database) : HttpResponse :=
  match read_player player_id db with
  | Except.ok p => ⟨200, [], playerToJson p⟩
  | Except.error e =>
      ⟨e.status_code, [], JsonValue.jobj [("detail", JsonValue.jstr e.detail)]⟩

/-- Wire response of GET /v0/leagues/{league_id}. -/
def leagueRouteResponse (league_id : Nat) (db : Database) : HttpResponse :=
  match read_league league_id db with
  | Except.ok l => ⟨200, [], leagueToJson l⟩
  | Except.error e =>
      ⟨e.status_code, [], JsonValue.jobj [("detail", JsonValue.jstr e.detail)]⟩

/-! ## Client SDK (src/chapter7/sdk/src/swcpy/swc_client.py) -/

/-- The SDK configuration object, with exactly the fields SWCClient.__init__
reads from it: base URL, backoff enable flag, maximum total backoff time
(seconds, modelled as a rational), and the bulk-file format selector. -/
structure SWCConfig where
  swc_base_url : String
  swc_backoff : Bool
  swc_backoff_max_time : Rat
  swc_bulk_file_format : String

/-- A Python value in an api_params dict: None, an int, a string or a date.
Only the None / not-None distinction matters to call_api. -/
inductive PyVal where
  | pynone
  | pyint (i : Int)
  | pystr (s : String)
  | pydate (d : SWCDate)
deriving DecidableEq, Repr

/-- The parameter-stripping step at the top of SWCClient.call_api:
when api_params is truthy (not None and not the empty dict) it is replaced by
the comprehension keeping exactly the entries whose value is not None; a None
or empty dict is left as it is (Python if api_params: guard). -/
def stripApiParams (api_params : Option (List (String × PyVal))) :
    Option (List (String × PyVal)) :=
  match api_params with
  | Option.none => Option.none
  | Option.some ps =>
    if ps.isEmpty then Option.some ps
    else Option.some (ps.filter (fun kv => kv.2 != PyVal.pynone))

/-- An HTTP request as issued by the SDK: method, absolute URL, query
parameters, and whether redirects are followed (httpx.Client and httpx.get
default to follow_redirects=False unless passed True). -/
structure HttpRequest where
  req_method : String
  url : String
  params : Option (List (String × PyVal))
  followRedirects : Bool
deriving Repr

/-- The GET request SWCClient.call_api sends: client.get(api_endpoint,
params=api_params) against base_url, after the None-stripping step, without
redirect-following. -/
def call_api_request (base_url api_endpoint : String)
    (api_params : Option (List (String × PyVal))) : HttpRequest :=
  ⟨"GET", base_url ++ api_endpoint, stripApiParams api_params, false⟩

/-- SWCClient class attribute. -/
def HEALTH_CHECK_ENDPOINT : String := "/"

/-- SWCClient class attribute. -/
def LIST_LEAGUES_ENDPOINT : String := "/v0/leagues/"

/-- SWCClient class attribute. -/
def LIST_PLAYERS_ENDPOINT : String := "/v0/players/"

/-- SWCClient class attribute. -/
def LIST_PERFORMANCES_ENDPOINT : String := "/v0/performances/"

/-- SWCClient class attribute. -/
def LIST_TEAMS_ENDPOINT : String := "/v0/teams/"

/-- SWCClient class attribute. -/
def GET_COUNTS_ENDPOINT : String := "/v0/counts/"

/-- The exceptions the retry policy is configured for. httpx raises
RequestError for network-level I/O failures; HTTPStatusError is raised only
by Response.raise_for_status, which SWCClient never calls. -/
inductive ApiError where
  | requestError
  | httpStatusError
deriving DecidableEq, Repr

/-- Outcome of one transport attempt of client.get: either the request fails
at network level (httpx.RequestError) or a response arrives. An HTTP error
status is delivered as a normal response; httpx does not raise for it unless
raise_for_status is called. -/
inductive TransportOutcome where
  | raiseRequestError
  | respond (r : HttpResponse)

/-- The body of SWCClient.call_api for one transport attempt: a delivered
response is returned whatever its status code (there is no raise_for_status
call), and an httpx.RequestError is logged and re-raised. The except
httpx.HTTPStatusError branch of the source is dead code, since nothing in the
try block raises that exception. -/
def call_api (t : TransportOutcome) : Except ApiError HttpResponse :=
  match t with
  | TransportOutcome.respond r => Except.ok r
  | TransportOutcome.raiseRequestError => Except.error ApiError.requestError

/-- Modelled from the spec: the wait generator backoff.expo of the external
backoff library (not among the given source files), with its defaults
base = 2, factor = 1: the k-th wait before jitter is 2 ^ k seconds. -/
def backoffExpoWait (k : Nat) : Rat := 2 ^ k

/-- Modelled from the spec: the next sleep the backoff library computes: the
wait-generator value plus random jitter (backoff.random_jitter adds a random
value in [0, 1)), capped at the time remaining until max_time. -/
def backoffNextWait (max_time elapsed : Rat) (k : Nat) (jitter_k : Rat) :
    Rat :=
  min (backoffExpoWait k + jitter_k) (max_time - elapsed)

/-- Modelled from the spec: the retry loop of backoff.on_exception as
installed around call_api in SWCClient.__init__ (wait_gen=backoff.expo,
exception=(httpx.RequestError, httpx.HTTPStatusError), max_time,
jitter=backoff.random_jitter). Each list element is the transport outcome of
one attempt; attempts themselves are modelled as instantaneous, so elapsed
time is the sum of the sleeps. On success the response is returned; on a
caught exception the loop gives up and re-raises once elapsed has reached
max_time, and otherwise sleeps the capped expo-plus-jitter wait and retries.
The result also carries the number of attempts made and the final elapsed
time; Option.none means the outcome list was exhausted with the loop still
running. -/
def backoffRun (max_time : Rat) (jitter : Nat → Rat) :
    List TransportOutcome → Nat → Rat →
    Option (Except ApiError HttpResponse × Nat × Rat)
  | [], _, _ => Option.none
  | o :: rest, tries, elapsed =>
    match call_api o with
    | Except.ok r => Option.some (Except.ok r, tries + 1, elapsed)
    | Except.error e =>
      if max_time ≤ elapsed then Option.some (Except.error e, tries + 1, elapsed)
      else backoffRun max_time jitter rest (tries + 1)
        (elapsed + backoffNextWait max_time elapsed tries (jitter tries))

/-- An SDK API call as dispatched through the client instance: when the
configuration enables backoff, SWCClient.__init__ has rebound call_api to the
retry wrapper; otherwise the plain call_api body runs once. -/
def clientCallApi (cfg : SWCConfig) (jitter : Nat → Rat)
    (outcomes : List TransportOutcome) :
    Option (Except ApiError HttpResponse × Nat × Rat) :=
  if cfg.swc_backoff then
    backoffRun cfg.swc_backoff_max_time jitter outcomes 0 0
  else
    match outcomes with
    | [] => Option.none
    | o :: _ => Option.some (call_api o, 1, 0)

/-- SWCClient.BULK_FILE_BASE_URL. -/
def BULK_FILE_BASE_URL : String :=
  "https://raw.githubusercontent.com/zheng-andrew"
    ++ "/portfolio-project/main/bulk/"

/-- The keys of the BULK_FILE_NAMES dictionary built in SWCClient.__init__. -/
inductive BulkEntity where
  | players
  | leagues
  | performances
  | teams
  | team_players
deriving DecidableEq, Repr

/-- The base file names of the BULK_FILE_NAMES dictionary before the format
suffix is appended. -/
def bulkFileBaseName : BulkEntity → String
  | BulkEntity.players => "player_data"
  | BulkEntity.leagues => "league_data"
  | BulkEntity.performances => "performance_data"
  | BulkEntity.teams => "team_data"
  | BulkEntity.team_players => "team_player_data"

/-- Python str.lower() applied to the format selector, as a character-wise
map (the relevant case mapping is ASCII). -/
def pyLower (s : String) : String :=
  String.mk (s.data.map Char.toLower)

/-- The BULK_FILE_NAMES entry after SWCClient.__init__ has appended the
format suffix: ".parquet" when bulk_file_format.lower() == "parquet",
".csv" otherwise. -/
def bulkFileName (bulk_file_format : String) (e : BulkEntity) : String :=
  if pyLower bulk_file_format == "parquet" then
    bulkFileBaseName e ++ ".parquet"
  else
    bulkFileBaseName e ++ ".csv"

/-- The request a bulk-file method issues: httpx.get(file_path,
follow_redirects=True) where file_path is BULK_FILE_BASE_URL plus the
BULK_FILE_NAMES entry of the entity. -/
def bulkFileRequest (cfg : SWCConfig) (e : BulkEntity) : HttpRequest :=
  ⟨"GET", BULK_FILE_BASE_URL ++ bulkFileName cfg.swc_bulk_file_format e,
    Option.none, true⟩

/-- The response handling shared by the bodies of the five bulk-file
methods: return response.content when status_code == 200; otherwise the
function body falls through and Python returns None. -/
def bulkFileResult (response : HttpResponse) : Option (List Nat) :=
  if response.status_code == 200 then Option.some response.content
  else Option.none

/-- SWCClient.get_bulk_player_file, over a transport function from requests
to responses. -/
def get_bulk_player_file (cfg : SWCConfig)
    (fetch : HttpRequest → HttpResponse) : Option (List Nat) :=
  bulkFileResult (fetch (bulkFileRequest cfg BulkEntity.players))

/-- SWCClient.get_bulk_league_file. -/
def get_bulk_league_file (cfg : SWCConfig)
    (fetch : HttpRequest → HttpResponse) : Option (List Nat) :=
  bulkFileResult (fetch (bulkFileRequest cfg BulkEntity.leagues))

/-- SWCClient.get_bulk_performance_file. -/
def get_bulk_performance_file (cfg : SWCConfig)
    (fetch : HttpRequest → HttpResponse) : Option (List Nat) :=
  bulkFileResult (fetch (bulkFileRequest cfg BulkEntity.performances))

/-- SWCClient.get_bulk_team_file. -/
def get_bulk_team_file (cfg : SWCConfig)
    (fetch : HttpRequest → HttpResponse) : Option (List Nat) :=
  bulkFileResult (fetch (bulkFileRequest cfg BulkEntity.teams))

/-- SWCClient.get_bulk_team_player_file. -/
def get_bulk_team_player_file (cfg : SWCConfig)
    (fetch : HttpRequest → HttpResponse) : Option (List Nat) :=
  bulkFileResult (fetch (bulkFileRequest cfg BulkEntity.team_players))

/-- SWCClient.get_player_by_id applied to the response the transport
delivered for /v0/players/{player_id}: the body runs
Player(**response.json()) with no status check, so the JSON body is parsed
as a Player whatever the status code was. -/
def sdk_get_player_by_id (response : HttpResponse) :
    Except ValidationError Player :=
  parsePlayer response.json

/-- SWCClient.get_league_by_id applied to the response the transport
delivered for /v0/leagues/{league_id}: League(**response.json()) with no
status check. -/
def sdk_get_league_by_id (response : HttpResponse) :
    Except ValidationError League :=
  parseLeague response.json

/-- A Python NameError carrying the unresolved name. -/
inductive PyNameError where
  | name_error (name : String)
deriving DecidableEq, Repr

/-- The names bound in the module global scope of swc_client.py: the imports
(httpx, config, League, Team, Player, Performance, Counts, List, date,
backoff, logging), the module logger and the class SWCClient. The endpoint
constants are class attributes of SWCClient, not module globals. -/
def swcClientModuleNames : List String :=
  ["httpx", "config", "League", "Team", "Player", "Performance", "Counts",
   "List", "date", "backoff", "logging", "logger", "SWCClient"]

/-- The class attributes of SWCClient with their string values. -/
def swcClientClassAttrs : List (String × String) :=
  [("HEALTH_CHECK_ENDPOINT", HEALTH_CHECK_ENDPOINT),
   ("LIST_LEAGUES_ENDPOINT", LIST_LEAGUES_ENDPOINT),
   ("LIST_PLAYERS_ENDPOINT", LIST_PLAYERS_ENDPOINT),
   ("LIST_PERFORMANCES_ENDPOINT", LIST_PERFORMANCES_ENDPOINT),
   ("LIST_TEAMS_ENDPOINT", LIST_TEAMS_ENDPOINT),
   ("GET_COUNTS_ENDPOINT", GET_COUNTS_ENDPOINT),
   ("BULK_FILE_BASE_URL", BULK_FILE_BASE_URL)]

/-- Python resolution of a bare name inside a method body: the local scope,
then the module global scope (then builtins, none of which matter here).
Class attributes are not part of this chain; reaching them needs self.name
or SWCClient.name. An unresolved bare name raises NameError. -/
def resolveBareName (locals : List String) (name : String) :
    Except PyNameError Unit :=
  if name ∈ locals ∨ name ∈ swcClientModuleNames then Except.ok ()
  else Except.error (PyNameError.name_error name)

/-- SWCClient.get_counts: the body evaluates the bare name
GET_COUNTS_ENDPOINT (not self.GET_COUNTS_ENDPOINT as the sibling methods do)
before anything else, with only self in local scope; when and only when that
name resolves does the method call the API and build
Counts(**response.json()). -/
def sdk_get_counts (call : String → HttpResponse) :
    Except PyNameError (Except ValidationError Counts) :=
  match resolveBareName ["self"] "GET_COUNTS_ENDPOINT" with
  | Except.error e => Except.error e
  | Except.ok _ => Except.ok (parseCounts (call GET_COUNTS_ENDPOINT).json)

/-! ## Sample data -/

/-- A small concrete database used to evaluate the theorems on concrete
inputs. One player has an empty first name and one team belongs to league 0,
so that an unset filter and an empty/zero filter can be told apart. -/
def sampleDb : Database :=
  ⟨[⟨1001, "Bryce", "Young", 5⟩, ⟨1002, "", "Smith", 3⟩,
    ⟨1003, "Ann", "Lee", 7⟩],
   [⟨2001, "Alpha", 0, 4⟩, ⟨2002, "Beta", 9, 6⟩],
   [⟨5001, "Premier", "PPR", 5⟩],
   [⟨9001, 1001, 1, 12, 4⟩, ⟨9002, 1001, 2, 20, 5⟩, ⟨9003, 1002, 1, 3, 2⟩]⟩

/-- A concrete SDK configuration with backoff enabled, a 10 second maximum
backoff time and the csv bulk format. -/
def sampleConfig : SWCConfig := ⟨"http://localhost:8000", true, 10, "csv"⟩

/-! ## Generic lemmas about filtering and pagination -/

/-- Membership in an optionally filtered list: the row must be in the input,
and must satisfy the predicate whenever the parameter is set. -/
theorem optFilter_mem {param : Option β} {pred : β → α → Bool}
    {rows : List α} {a : α} :
    a ∈ optFilter param pred rows ↔
      a ∈ rows ∧ ∀ v ∈ param, pred v a = true := by
  cases param with
  | none => simp [optFilter]
  | some v => simp [optFilter, List.mem_filter]

/-- A page never exceeds the limit. -/
theorem paginate_length_le (rows : List α) (skip limit : Nat) :
    (paginate rows skip limit).length ≤ limit := by
  simp only [paginate, List.length_take, List.length_drop]
  omega

/-- The length of a page is the limit, saturated by the rows remaining after
the skip. -/
theorem paginate_length (rows : List α) (skip limit : Nat) :
    (paginate rows skip limit).length = min limit (rows.length - skip) := by
  simp [paginate, List.length_take, List.length_drop]

/-- Element i of a page is element skip + i of the underlying ordered rows:
a page is the window of the rows starting at the skip offset. -/
theorem paginate_get (rows : List α) (skip limit i : Nat)
    (h1 : i < (paginate rows skip limit).length)
    (h2 : skip + i < rows.length) :
    (paginate rows skip limit).get ⟨i, h1⟩ = rows.get ⟨skip + i, h2⟩ := by
  simp [paginate, List.getElem_take, List.getElem_drop]

/-- Concatenating the first n pages of size limit yields the first
n * limit rows. -/
theorem range_flatMap_paginate (rows : List α) (limit : Nat) :
    ∀ n : Nat,
      ((List.range n).flatMap fun k => paginate rows (k * limit) limit) =
        rows.take (n * limit) := by
  intro n
  induction n with
  | zero => simp
  | succ m ih =>
    rw [List.range_succ, List.flatMap_append, ih]
    have hmul : (m + 1) * limit = m * limit + limit := by ring
    rw [hmul, List.take_add]
    simp [paginate]

/-- Pages of size limit at skips 0, limit, 2*limit, ... partition the row
list exactly - no row is missed and none is repeated - as soon as n pages
cover its length. -/
theorem paginate_partition (rows : List α) (limit n : Nat)
    (h : rows.length ≤ n * limit) :
    ((List.range n).flatMap fun k => paginate rows (k * limit) limit) =
      rows := by
  rw [range_flatMap_paginate, List.take_of_length_le h]

/-- A page over the full length of the rows with no skip is the whole row
list. -/
theorem paginate_all (rows : List α) (limit : Nat)
    (h : rows.length ≤ limit) : paginate rows 0 limit = rows := by
  simp [paginate, List.take_of_length_le h]

/-- Round trip: parsing the wire serialization of a player recovers it. -/
theorem parsePlayer_playerToJson (p : Player) :
    parsePlayer (playerToJson p) = Except.ok p := by
  rfl

/-- Round trip: parsing the wire serialization of a league recovers it. -/
theorem parseLeague_leagueToJson (l : League) :
    parseLeague (leagueToJson l) = Except.ok l := by
  rfl

/-- Parsing a detail-only error body as a Player fails on the first required
field. -/
theorem parsePlayer_detail (s : String) :
    parsePlayer (JsonValue.jobj [("detail", JsonValue.jstr s)]) =
      Except.error (ValidationError.validation_error "player_id") := by
  rfl

/-- Parsing a detail-only error body as a League fails on the first required
field. -/
theorem parseLeague_detail (s : String) :
    parseLeague (JsonValue.jobj [("detail", JsonValue.jstr s)]) =
      Except.error (ValidationError.validation_error "league_id") := by
  rfl

/-- The stripping step of call_api on a present parameter dict keeps exactly
the entries whose value is not None. -/
theorem stripApiParams_some (ps : List (String × PyVal)) :
    stripApiParams (Option.some ps) =
      Option.some (ps.filter (fun kv => kv.2 != PyVal.pynone)) := by
  by_cases h : ps.isEmpty
  · rw [List.isEmpty_iff] at h
    subst h
    rfl
  · simp [stripApiParams, h]

/-- Membership in the filtered player set: the row is a database row passing
the date bound and the exact name matches of whatever filters are set. -/
theorem playersFiltered_mem {db : Database} {md : Option SWCDate}
    {fn ln : Option String} {p : Player} :
    p ∈ playersFiltered db md fn ln ↔
      p ∈ db.players ∧ (∀ d ∈ md, d ≤ p.last_changed_date) ∧
        (∀ v ∈ fn, p.first_name = v) ∧ (∀ v ∈ ln, p.last_name = v) := by
  simp only [playersFiltered, optFilter_mem, beq_iff_eq, decide_eq_true_eq]
  tauto

/-- Membership in the filtered performance set. -/
theorem performancesFiltered_mem {db : Database} {md : Option SWCDate}
    {p : Performance} :
    p ∈ performancesFiltered db md ↔
      p ∈ db.performances ∧ ∀ d ∈ md, d ≤ p.last_changed_date := by
  simp only [performancesFiltered, optFilter_mem, decide_eq_true_eq]

/-- Membership in the filtered league set. -/
theorem leaguesFiltered_mem {db : Database} {md : Option SWCDate}
    {lnm : Option String} {l : League} :
    l ∈ leaguesFiltered db md lnm ↔
      l ∈ db.leagues ∧ (∀ d ∈ md, d ≤ l.last_changed_date) ∧
        (∀ v ∈ lnm, l.league_name = v) := by
  simp only [leaguesFiltered, optFilter_mem, beq_iff_eq, decide_eq_true_eq]
  tauto

/-- Membership in the filtered team set. -/
theorem teamsFiltered_mem {db : Database} {md : Option SWCDate}
    {tn : Option String} {lid : Option Nat} {t : Team} :
    t ∈ teamsFiltered db md tn lid ↔
      t ∈ db.teams ∧ (∀ d ∈ md, d ≤ t.last_changed_date) ∧
        (∀ v ∈ tn, t.team_name = v) ∧ (∀ v ∈ lid, t.league_id = v) := by
  simp only [teamsFiltered, optFilter_mem, beq_iff_eq, decide_eq_true_eq]
  tauto

/-- One failing attempt of the retry loop inside the time budget: the loop
sleeps the capped expo-plus-jitter wait and retries. -/
theorem backoffRun_fail_step (mt : Rat) (j : Nat → Rat)
    (rest : List TransportOutcome) (k : Nat) (e : Rat) (h : ¬ mt ≤ e) :
    backoffRun mt j (TransportOutcome.raiseRequestError :: rest) k e
      = backoffRun mt j rest (k + 1) (e + backoffNextWait mt e k (j k)) := by
  simp [backoffRun, call_api, h]

/-- A delivered response ends the retry loop at once, whatever its status
code. -/
theorem backoffRun_respond_step (mt : Rat) (j : Nat → Rat)
    (r : HttpResponse) (rest : List TransportOutcome) (k : Nat) (e : Rat) :
    backoffRun mt j (TransportOutcome.respond r :: rest) k e
      = Option.some (Except.ok r, k + 1, e) := by
  simp [backoffRun, call_api]

/-- A failing attempt once the elapsed time has reached the budget re-raises
the caught failure. -/
theorem backoffRun_giveup (mt : Rat) (j : Nat → Rat)
    (rest : List TransportOutcome) (k : Nat) (e : Rat) (h : mt ≤ e) :
    backoffRun mt j (TransportOutcome.raiseRequestError :: rest) k e
      = Option.some (Except.error ApiError.requestError, k + 1, e) := by
  simp [backoffRun, call_api, h]

/-- The elapsed time of the retry loop never exceeds the maximum backoff
time: each sleep is capped by the remaining budget. -/
theorem backoffRun_elapsed_le (mt : Rat) (j : Nat → Rat) :
    ∀ (outs : List TransportOutcome) (k : Nat) (e : Rat), e ≤ mt →
      ∀ res t e2, backoffRun mt j outs k e = Option.some (res, t, e2) →
        e2 ≤ mt := by
  intro outs
  induction outs with
  | nil =>
    intro k e he res t e2 h
    simp [backoffRun] at h
  | cons o rest ih =>
    intro k e he res t e2 h
    cases o with
    | respond r =>
      rw [backoffRun_respond_step] at h
      simp only [Option.some.injEq, Prod.mk.injEq] at h
      obtain ⟨-, -, he2⟩ := h
      exact he2 ▸ he
    | raiseRequestError =>
      by_cases hc : mt ≤ e
      · rw [backoffRun_giveup mt j rest k e hc] at h
        simp only [Option.some.injEq, Prod.mk.injEq] at h
        obtain ⟨-, -, he2⟩ := h
        exact he2 ▸ he
      · rw [backoffRun_fail_step mt j rest k e hc] at h
        refine ih (k + 1) _ ?_ res t e2 h
        have hmin : backoffNextWait mt e k (j k) ≤ mt - e :=
          min_le_right _ _
        linarith

/-- When every attempt fails at network level, whatever the retry loop
returns is the re-raised request error: a success is never fabricated. -/
theorem backoffRun_replicate_fail (mt : Rat) (j : Nat → Rat) :
    ∀ (n k : Nat) (e : Rat) res t e2,
      backoffRun mt j
          (List.replicate n TransportOutcome.raiseRequestError) k e
        = Option.some (res, t, e2) →
      res = Except.error ApiError.requestError := by
  intro n
  induction n with
  | zero =>
    intro k e res t e2 h
    simp [backoffRun] at h
  | succ m ih =>
    intro k e res t e2 h
    rw [List.replicate_succ] at h
    by_cases hc : mt ≤ e
    · rw [backoffRun_giveup mt j _ k e hc] at h
      simp only [Option.some.injEq, Prod.mk.injEq] at h
      exact h.1.symm
    · rw [backoffRun_fail_step mt j _ k e hc] at h
      exact ih _ _ res t e2 h

/-- Two transient failures then a success, all within the time budget: the
loop sleeps 1 + jitter and then 2 + jitter (exponentially increasing delay
plus jitter) and returns the successful response on the third attempt. -/
theorem backoffRun_two_failures (mt : Rat) (j : Nat → Rat) (r : HttpResponse)
    (h0 : 0 ≤ j 0) (h1 : 0 ≤ j 1) (hmt : (1 + j 0) + (2 + j 1) < mt) :
    backoffRun mt j [TransportOutcome.raiseRequestError,
      TransportOutcome.raiseRequestError, TransportOutcome.respond r] 0 0
      = Option.some (Except.ok r, 3, (1 + j 0) + (2 + j 1)) := by
  have hb1 : ¬ mt ≤ (0 : Rat) := by push_neg; linarith
  have hb2 : ¬ mt ≤ 1 + j 0 := by push_neg; linarith
  have e1 : backoffNextWait mt 0 0 (j 0) = 1 + j 0 := by
    unfold backoffNextWait backoffExpoWait
    rw [pow_zero, min_eq_left (by linarith)]
  have e2 : backoffNextWait mt (1 + j 0) 1 (j 1) = 2 + j 1 := by
    unfold backoffNextWait backoffExpoWait
    rw [pow_one, min_eq_left (by linarith)]
  calc backoffRun mt j [TransportOutcome.raiseRequestError,
        TransportOutcome.raiseRequestError, TransportOutcome.respond r] 0 0
      = backoffRun mt j [TransportOutcome.raiseRequestError,
          TransportOutcome.respond r] (0 + 1)
          (0 + backoffNextWait mt 0 0 (j 0)) :=
        backoffRun_fail_step mt j _ 0 0 hb1
    _ = backoffRun mt j [TransportOutcome.raiseRequestError,
          TransportOutcome.respond r] 1 (1 + j 0) := by
        rw [e1]; norm_num
    _ = backoffRun mt j [TransportOutcome.respond r] (1 + 1)
          ((1 + j 0) + backoffNextWait mt (1 + j 0) 1 (j 1)) :=
        backoffRun_fail_step mt j _ 1 (1 + j 0) hb2
    _ = Option.some (Except.ok r, 3, (1 + j 0) + (2 + j 1)) := by
        rw [e2, backoffRun_respond_step]

/-! ## Claims -/

/-- C1: for every list endpoint and every skip/limit pair, the returned row
sequence is a deterministic window of the filtered result set: its length is
at most limit, its i-th element is row skip + i of the filtered set (filters
applied before skip/limit), and calls with skip increasing in limit-sized
steps partition the full filtered result set with no gaps and no duplicates.
Stated for each of the four list endpoints: players, performances, leagues,
teams. -/
theorem claim_C1_list_pagination :
    (∀ db skip limit md fn ln,
      (read_players skip limit md fn ln db).length ≤ limit ∧
      (read_players skip limit md fn ln db).length
          = min limit ((playersFiltered db md fn ln).length - skip) ∧
      ∀ (i : Nat) (h1 : i < (read_players skip limit md fn ln db).length)
        (h2 : skip + i < (playersFiltered db md fn ln).length),
        (read_players skip limit md fn ln db).get ⟨i, h1⟩
          = (playersFiltered db md fn ln).get ⟨skip + i, h2⟩) ∧
    (∀ db limit n md fn ln,
      (playersFiltered db md fn ln).length ≤ n * limit →
      ((List.range n).flatMap fun k =>
          read_players (k * limit) limit md fn ln db)
        = playersFiltered db md fn ln) ∧
    (∀ db skip limit md,
      (read_performances skip limit md db).length ≤ limit ∧
      (read_performances skip limit md db).length
          = min limit ((performancesFiltered db md).length - skip) ∧
      ∀ (i : Nat) (h1 : i < (read_performances skip limit md db).length)
        (h2 : skip + i < (performancesFiltered db md).length),
        (read_performances skip limit md db).get ⟨i, h1⟩
          = (performancesFiltered db md).get ⟨skip + i, h2⟩) ∧
    (∀ db limit n md,
      (performancesFiltered db md).length ≤ n * limit →
      ((List.range n).flatMap fun k =>
          read_performances (k * limit) limit md db)
        = performancesFiltered db md) ∧
    (∀ db skip limit md lnm,
      (read_leagues skip limit md lnm db).length ≤ limit ∧
      (read_leagues skip limit md lnm db).length
          = min limit ((leaguesFiltered db md lnm).length - skip) ∧
      ∀ (i : Nat) (h1 : i < (read_leagues skip limit md lnm db).length)
        (h2 : skip + i < (leaguesFiltered db md lnm).length),
        (read_leagues skip limit md lnm db).get ⟨i, h1⟩
          = (leaguesFiltered db md lnm).get ⟨skip + i, h2⟩) ∧
    (∀ db limit n md lnm,
      (leaguesFiltered db md lnm).length ≤ n * limit →
      ((List.range n).flatMap fun k =>
          read_leagues (k * limit) limit md lnm db)
        = leaguesFiltered db md lnm) ∧
    (∀ db skip limit md tn lid,
      (read_teams skip limit md tn lid db).length ≤ limit ∧
      (read_teams skip limit md tn lid db).length
          = min limit ((teamsFiltered db md tn lid).length - skip) ∧
      ∀ (i : Nat) (h1 : i < (read_teams skip limit md tn lid db).length)
        (h2 : skip + i < (teamsFiltered db md tn lid).length),
        (read_teams skip limit md tn lid db).get ⟨i, h1⟩
          = (teamsFiltered db md tn lid).get ⟨skip + i, h2⟩) ∧
    (∀ db limit n md tn lid,
      (teamsFiltered db md tn lid).length ≤ n * limit →
      ((List.range n).flatMap fun k =>
          read_teams (k * limit) limit md tn lid db)
        = teamsFiltered db md tn lid) := by
  refine ⟨?_, ?_, ?_, ?_, ?_, ?_, ?_, ?_⟩
  · intro db skip limit md fn ln
    exact ⟨paginate_length_le _ _ _, paginate_length _ _ _,
      fun i h1 h2 => paginate_get _ _ _ _ h1 h2⟩
  · intro db limit n md fn ln h
    exact paginate_partition _ _ _ h
  · intro db skip limit md
    exact ⟨paginate_length_le _ _ _, paginate_length _ _ _,
      fun i h1 h2 => paginate_get _ _ _ _ h1 h2⟩
  · intro db limit n md h
    exact paginate_partition _ _ _ h
  · intro db skip limit md lnm
    exact ⟨paginate_length_le _ _ _, paginate_length _ _ _,
      fun i h1 h2 => paginate_get _ _ _ _ h1 h2⟩
  · intro db limit n md lnm h
    exact paginate_partition _ _ _ h
  · intro db skip limit md tn lid
    exact ⟨paginate_length_le _ _ _, paginate_length _ _ _,
      fun i h1 h2 => paginate_get _ _ _ _ h1 h2⟩
  · intro db limit n md tn lid h
    exact paginate_partition _ _ _ h

/-- C1 witness: on the sample database the pages of size 2 at skips 0 and 2
concatenate to the full filtered player set, and element 0 of the page at
skip 1 is row 1 of the filtered set. -/
theorem claim_C1_list_pagination_witness :
    (((List.range 2).flatMap fun k =>
        read_players (k * 2) 2 Option.none Option.none Option.none sampleDb)
      = playersFiltered sampleDb Option.none Option.none Option.none) ∧
    ((read_players 1 2 Option.none Option.none Option.none sampleDb).get
        ⟨0, by decide⟩
      = (playersFiltered sampleDb Option.none Option.none Option.none).get
        ⟨1 + 0, by decide⟩) :=
  ⟨claim_C1_list_pagination.2.1 sampleDb 2 2 Option.none Option.none
      Option.none (by decide),
   (claim_C1_list_pagination.1 sampleDb 1 2 Option.none Option.none
      Option.none).2.2 0 (by decide) (by decide)⟩

/-- C3: min_last_changed_date filtering is an inclusive lower bound on every
list query carrying it: a performance row with last_changed equal to the
given date is in the filtered set, a row strictly before the date is not,
and an absent parameter filters nothing; the performances endpoint paginates
exactly that filtered set. For players, leagues and teams, membership in the
date-filtered set is exactly membership in the set with the date parameter
absent plus the inclusive bound - so equal-date rows are included and
strictly earlier rows excluded there as well. -/
theorem claim_C3_min_date_inclusive :
    (∀ db (d : SWCDate) (p : Performance),
      p ∈ performancesFiltered db (Option.some d) ↔
        p ∈ db.performances ∧ d ≤ p.last_changed_date) ∧
    (∀ db (d : SWCDate) (p : Performance), p ∈ db.performances →
      p.last_changed_date = d → p ∈ performancesFiltered db (Option.some d)) ∧
    (∀ db (d : SWCDate) (p : Performance), p.last_changed_date < d →
      p ∉ performancesFiltered db (Option.some d)) ∧
    (∀ db, performancesFiltered db Option.none = db.performances) ∧
    (∀ db skip limit md, read_performances skip limit md db
      = paginate (performancesFiltered db md) skip limit) ∧
    (∀ db (d : SWCDate) fn ln (p : Player),
      p ∈ playersFiltered db (Option.some d) fn ln ↔
        p ∈ playersFiltered db Option.none fn ln ∧
          d ≤ p.last_changed_date) ∧
    (∀ db (d : SWCDate) lnm (l : League),
      l ∈ leaguesFiltered db (Option.some d) lnm ↔
        l ∈ leaguesFiltered db Option.none lnm ∧
          d ≤ l.last_changed_date) ∧
    (∀ db (d : SWCDate) tn lid (t : Team),
      t ∈ teamsFiltered db (Option.some d) tn lid ↔
        t ∈ teamsFiltered db Option.none tn lid ∧
          d ≤ t.last_changed_date) := by
  refine ⟨?_, ?_, ?_, ?_, ?_, ?_, ?_, ?_⟩
  · intro db d p
    simpa using @performancesFiltered_mem db (Option.some d) p
  · intro db d p hp hd
    exact (@performancesFiltered_mem db (Option.some d) p).mpr
      ⟨hp, by simp [hd]⟩
  · intro db d p hlt hmem
    have hle : d ≤ p.last_changed_date :=
      (performancesFiltered_mem.mp hmem).2 d rfl
    exact Nat.lt_irrefl _ (Nat.lt_of_lt_of_le hlt hle)
  · intro db
    rfl
  · intro db skip limit md
    rfl
  · intro db d fn ln p
    simp only [playersFiltered_mem]
    simp
    tauto
  · intro db d lnm l
    simp only [leaguesFiltered_mem]
    simp
    tauto
  · intro db d tn lid t
    simp only [teamsFiltered_mem]
    simp
    tauto

/-- C3 witness: in the sample database, the performance last changed on day
4 is in the filtered set for minimum date 4 (equal date included) and not in
the filtered set for minimum date 5 (one day earlier than the bound); the
player last changed on day 5 is in the player set date-filtered at 5. -/
theorem claim_C3_min_date_inclusive_witness :
    (⟨9001, 1001, 1, 12, 4⟩ : Performance)
        ∈ performancesFiltered sampleDb (Option.some 4) ∧
    (⟨9001, 1001, 1, 12, 4⟩ : Performance)
        ∉ performancesFiltered sampleDb (Option.some 5) ∧
    (⟨1001, "Bryce", "Young", 5⟩ : Player)
        ∈ playersFiltered sampleDb (Option.some 5) Option.none Option.none :=
  ⟨claim_C3_min_date_inclusive.2.1 sampleDb 4 ⟨9001, 1001, 1, 12, 4⟩
      (by decide) rfl,
   claim_C3_min_date_inclusive.2.2.1 sampleDb 5 ⟨9001, 1001, 1, 12, 4⟩
      (by decide),
   (claim_C3_min_date_inclusive.2.2.2.2.2.1 sampleDb 5 Option.none
      Option.none ⟨1001, "Bryce", "Young", 5⟩).mpr ⟨by decide, by decide⟩⟩

/-- C4: for every list route, an optional filter parameter absent from the
HTTP request reaches the Filter-Query Layer as an absent value, never as an
empty string or zero: all four route handlers pass the optional parameters
through unchanged (with defaults only for skip and limit), an unset name,
league-id or date filter imposes no constraint at all - rows whose field is
the empty string or zero are treated like all others - while a filter
explicitly set (even to the empty string or to zero) constrains the result
to exactly the rows bearing that value. -/
theorem claim_C4_unset_filters :
    (∀ q db, handle_players_request q db
        = read_players (q.skip.getD 0) (q.limit.getD 100)
            q.minimum_last_changed_date q.first_name q.last_name db) ∧
    (∀ q db, handle_performances_request q db
        = read_performances (q.skip.getD 0) (q.limit.getD 100)
            q.minimum_last_changed_date db) ∧
    (∀ q db, handle_leagues_request q db
        = read_leagues (q.skip.getD 0) (q.limit.getD 100)
            q.minimum_last_changed_date q.league_name db) ∧
    (∀ q db, handle_teams_request q db
        = read_teams (q.skip.getD 0) (q.limit.getD 100)
            q.minimum_last_changed_date q.team_name q.league_id db) ∧
    (∀ db md ln (p : Player),
      p ∈ playersFiltered db md Option.none ln ↔
        p ∈ db.players ∧ (∀ d ∈ md, d ≤ p.last_changed_date) ∧
          (∀ v ∈ ln, p.last_name = v)) ∧
    (∀ db md fn ln (p : Player),
      p ∈ playersFiltered db md (Option.some fn) ln → p.first_name = fn) ∧
    (∀ db md fn lnv (p : Player),
      p ∈ playersFiltered db md fn (Option.some lnv) → p.last_name = lnv) ∧
    (∀ db md (l : League),
      l ∈ leaguesFiltered db md Option.none ↔
        l ∈ db.leagues ∧ ∀ d ∈ md, d ≤ l.last_changed_date) ∧
    (∀ db md lnm (l : League),
      l ∈ leaguesFiltered db md (Option.some lnm) → l.league_name = lnm) ∧
    (∀ db md tn (t : Team),
      t ∈ teamsFiltered db md tn Option.none ↔
        t ∈ db.teams ∧ (∀ d ∈ md, d ≤ t.last_changed_date) ∧
          (∀ v ∈ tn, t.team_name = v)) ∧
    (∀ db md tnv lid (t : Team),
      t ∈ teamsFiltered db md (Option.some tnv) lid → t.team_name = tnv) ∧
    (∀ db md tn lid (t : Team),
      t ∈ teamsFiltered db md tn (Option.some lid) → t.league_id = lid) ∧
    (∀ db (q : PerformancesQueryParams),
      q.minimum_last_changed_date = Option.none →
      handle_performances_request q db
        = paginate db.performances (q.skip.getD 0) (q.limit.getD 100)) := by
  refine ⟨fun q db => rfl, fun q db => rfl, fun q db => rfl, fun q db => rfl,
    ?_, ?_, ?_, ?_, ?_, ?_, ?_, ?_, ?_⟩
  · intro db md ln p
    rw [playersFiltered_mem]
    simp
  · intro db md fn ln p hmem
    exact (playersFiltered_mem.mp hmem).2.2.1 fn rfl
  · intro db md fn lnv p hmem
    exact (playersFiltered_mem.mp hmem).2.2.2 lnv rfl
  · intro db md l
    rw [leaguesFiltered_mem]
    simp
  · intro db md lnm l hmem
    exact (leaguesFiltered_mem.mp hmem).2.2 lnm rfl
  · intro db md tn t
    rw [teamsFiltered_mem]
    simp
  · intro db md tnv lid t hmem
    exact (teamsFiltered_mem.mp hmem).2.2.1 tnv rfl
  · intro db md tn lid t hmem
    exact (teamsFiltered_mem.mp hmem).2.2.2 lid rfl
  · intro db q h
    show read_performances (q.skip.getD 0) (q.limit.getD 100)
        q.minimum_last_changed_date db
      = paginate db.performances (q.skip.getD 0) (q.limit.getD 100)
    rw [h]
    rfl

/-- C4 witness: with no filters set, the sample player whose first name is
the empty string is still in the filtered set (unset is not empty string),
the sample league is in the league set with league_name unset, a league_name
filter explicitly set really constrains league names, and a league-id filter
explicitly set to 0 really constrains teams to league 0 (zero is not
unset). -/
theorem claim_C4_unset_filters_witness :
    (⟨1002, "", "Smith", 3⟩ : Player)
        ∈ playersFiltered sampleDb Option.none Option.none Option.none ∧
    (⟨5001, "Premier", "PPR", 5⟩ : League)
        ∈ leaguesFiltered sampleDb Option.none Option.none ∧
    (⟨5001, "Premier", "PPR", 5⟩ : League).league_name = "Premier" ∧
    ((⟨2001, "Alpha", 0, 4⟩ : Team)
        ∈ teamsFiltered sampleDb Option.none Option.none (Option.some 0) →
      (⟨2001, "Alpha", 0, 4⟩ : Team).league_id = 0) :=
  ⟨(claim_C4_unset_filters.2.2.2.2.1 sampleDb Option.none Option.none
      ⟨1002, "", "Smith", 3⟩).mpr ⟨by decide, by simp, by simp⟩,
   (claim_C4_unset_filters.2.2.2.2.2.2.2.1 sampleDb Option.none
      ⟨5001, "Premier", "PPR", 5⟩).mpr ⟨by decide, by simp⟩,
   claim_C4_unset_filters.2.2.2.2.2.2.2.2.1 sampleDb Option.none "Premier"
      ⟨5001, "Premier", "PPR", 5⟩ (by decide),
   claim_C4_unset_filters.2.2.2.2.2.2.2.2.2.2.2.1 sampleDb Option.none
      Option.none 0 ⟨2001, "Alpha", 0, 4⟩⟩

/-- C9: the counts route takes no filter parameters and returns the total
row count of each collection, which equals the length of the corresponding
unfiltered list call with skip 0 and a limit covering all rows of the same
unmutated database. -/
theorem claim_C9_counts :
    ∀ db (L : Nat), db.players.length ≤ L → db.teams.length ≤ L →
      db.leagues.length ≤ L →
      get_count db
        = ⟨(read_leagues 0 L Option.none Option.none db).length,
           (read_teams 0 L Option.none Option.none Option.none db).length,
           (read_players 0 L Option.none Option.none Option.none db).length⟩ := by
  intro db L hp ht hl
  have h1 : read_players 0 L Option.none Option.none Option.none db
      = db.players := paginate_all db.players L hp
  have h2 : read_teams 0 L Option.none Option.none Option.none db
      = db.teams := paginate_all db.teams L ht
  have h3 : read_leagues 0 L Option.none Option.none db
      = db.leagues := paginate_all db.leagues L hl
  rw [h1, h2, h3]
  rfl

/-- C9 witness: on the sample database with limit 10 the counts object is
the component-wise length of the unfiltered, unpaginated list calls. -/
theorem claim_C9_counts_witness :
    get_count sampleDb
      = ⟨(read_leagues 0 10 Option.none Option.none sampleDb).length,
         (read_teams 0 10 Option.none Option.none Option.none sampleDb).length,
         (read_players 0 10 Option.none Option.none Option.none
            sampleDb).length⟩ :=
  claim_C9_counts sampleDb 10 (by decide) (by decide) (by decide)

/-- C5 counterexample: for the unknown player id 999 the route does respond
404, but the SDK caller does not receive a clean absence signal: SWCClient
get_player_by_id parses the 404 detail body as a Player and a validation
error is raised to the caller, refuting the claim that an unknown id never
yields an exception at the caller. -/
theorem claim_C5_counterexample :
    read_player 999 sampleDb
        = Except.error ⟨404, "Player not found"⟩ ∧
    sdk_get_player_by_id (playerRouteResponse 999 sampleDb)
        = Except.error (ValidationError.validation_error "player_id") := by
  exact ⟨rfl, rfl⟩

/-- C5 (amended): by-id lookup is deterministic - the row returned is a
database row bearing the looked-up id, identical on every call against the
same data - and an unknown id makes the route raise the 404 HTTPException,
a clean NotFound at the route layer; for a known id the SDK by-id methods
return the parsed row, but for an unknown id they parse the 404 detail body
without checking the status and the caller receives a validation error, not
a clean absence signal. -/
theorem claim_C5_by_id_lookup :
    (∀ db id p, get_player db id = Option.some p →
      p ∈ db.players ∧ p.player_id = id ∧ read_player id db = Except.ok p) ∧
    (∀ db id, (∀ p ∈ db.players, p.player_id ≠ id) →
      read_player id db = Except.error ⟨404, "Player not found"⟩) ∧
    (∀ db id, (∀ l ∈ db.leagues, l.league_id ≠ id) →
      read_league id db = Except.error ⟨404, "League not found"⟩) ∧
    (∀ db id p, read_player id db = Except.ok p →
      sdk_get_player_by_id (playerRouteResponse id db) = Except.ok p) ∧
    (∀ db id e, read_player id db = Except.error e →
      sdk_get_player_by_id (playerRouteResponse id db)
        = Except.error (ValidationError.validation_error "player_id")) ∧
    (∀ db id l, read_league id db = Except.ok l →
      sdk_get_league_by_id (leagueRouteResponse id db) = Except.ok l) ∧
    (∀ db id e, read_league id db = Except.error e →
      sdk_get_league_by_id (leagueRouteResponse id db)
        = Except.error (ValidationError.validation_error "league_id")) := by
  refine ⟨?_, ?_, ?_, ?_, ?_, ?_, ?_⟩
  · intro db id p h
    refine ⟨List.mem_of_find?_eq_some h, ?_, ?_⟩
    · have := List.find?_some h
      simpa using this
    · simp [read_player, h]
  · intro db id h
    have hn : get_player db id = Option.none := by
      rw [get_player, List.find?_eq_none]
      intro p hp
      simpa using h p hp
    simp [read_player, hn]
  · intro db id h
    have hn : get_league db id = Option.none := by
      rw [get_league, List.find?_eq_none]
      intro l hl
      simpa using h l hl
    simp [read_league, hn]
  · intro db id p h
    simp [playerRouteResponse, h, sdk_get_player_by_id,
      parsePlayer_playerToJson]
  · intro db id e h
    simp [playerRouteResponse, h, sdk_get_player_by_id, parsePlayer_detail]
  · intro db id l h
    simp [leagueRouteResponse, h, sdk_get_league_by_id,
      parseLeague_leagueToJson]
  · intro db id e h
    simp [leagueRouteResponse, h, sdk_get_league_by_id, parseLeague_detail]

/-- C5 witness: on the sample database the known id 1001 round-trips through
route serialization and SDK parsing to the same row, and every sample player
differs from id 999, so the route answers 404 for it. -/
theorem claim_C5_by_id_lookup_witness :
    sdk_get_player_by_id (playerRouteResponse 1001 sampleDb)
        = Except.ok ⟨1001, "Bryce", "Young", 5⟩ ∧
    read_league 999 sampleDb = Except.error ⟨404, "League not found"⟩ :=
  ⟨claim_C5_by_id_lookup.2.2.2.1 sampleDb 1001 ⟨1001, "Bryce", "Young", 5⟩
      (by rfl),
   claim_C5_by_id_lookup.2.2.1 sampleDb 999 (by decide)⟩

/-- C6: every bulk-file download method returns the raw body bytes when the
fetched response has status 200 and the absence signal (None, never an empty
byte sequence and never an exception) on any other status. -/
theorem claim_C6_bulk_download :
    ∀ cfg (resp : HttpResponse),
      (resp.status_code = 200 →
        get_bulk_player_file cfg (fun _ => resp)
            = Option.some resp.content ∧
        get_bulk_league_file cfg (fun _ => resp)
            = Option.some resp.content ∧
        get_bulk_performance_file cfg (fun _ => resp)
            = Option.some resp.content ∧
        get_bulk_team_file cfg (fun _ => resp)
            = Option.some resp.content ∧
        get_bulk_team_player_file cfg (fun _ => resp)
            = Option.some resp.content) ∧
      (resp.status_code ≠ 200 →
        get_bulk_player_file cfg (fun _ => resp) = Option.none ∧
        get_bulk_league_file cfg (fun _ => resp) = Option.none ∧
        get_bulk_performance_file cfg (fun _ => resp) = Option.none ∧
        get_bulk_team_file cfg (fun _ => resp) = Option.none ∧
        get_bulk_team_player_file cfg (fun _ => resp) = Option.none) := by
  intro cfg resp
  constructor
  · intro h
    refine ⟨?_, ?_, ?_, ?_, ?_⟩ <;>
      simp [get_bulk_player_file, get_bulk_league_file,
        get_bulk_performance_file, get_bulk_team_file,
        get_bulk_team_player_file, bulkFileResult, h]
  · intro h
    refine ⟨?_, ?_, ?_, ?_, ?_⟩ <;>
      simp [get_bulk_player_file, get_bulk_league_file,
        get_bulk_performance_file, get_bulk_team_file,
        get_bulk_team_player_file, bulkFileResult, h]

/-- C6 witness: a 404 response with a non-empty body yields the absence
signal from every bulk method, and a 200 response yields its bytes. -/
theorem claim_C6_bulk_download_witness :
    (get_bulk_player_file sampleConfig
        (fun _ => ⟨404, [7, 7], JsonValue.jnull⟩) = Option.none ∧
     get_bulk_league_file sampleConfig
        (fun _ => ⟨404, [7, 7], JsonValue.jnull⟩) = Option.none ∧
     get_bulk_performance_file sampleConfig
        (fun _ => ⟨404, [7, 7], JsonValue.jnull⟩) = Option.none ∧
     get_bulk_team_file sampleConfig
        (fun _ => ⟨404, [7, 7], JsonValue.jnull⟩) = Option.none ∧
     get_bulk_team_player_file sampleConfig
        (fun _ => ⟨404, [7, 7], JsonValue.jnull⟩) = Option.none) ∧
    get_bulk_player_file sampleConfig
        (fun _ => ⟨200, [1, 2], JsonValue.jnull⟩) = Option.some [1, 2] :=
  ⟨(claim_C6_bulk_download sampleConfig ⟨404, [7, 7], JsonValue.jnull⟩).2
      (by decide),
   ((claim_C6_bulk_download sampleConfig ⟨200, [1, 2], JsonValue.jnull⟩).1
      rfl).1⟩

/-- C7: the claim that SWCClient.get_counts issues a GET to the counts
endpoint and returns a parsed Counts object on every invocation fails on
the code: the method body reads the bare name GET_COUNTS_ENDPOINT, which is
neither a local nor a module-global name - it exists only as a class
attribute, whose value is the literal counts path - so Python raises a
NameError before any request is issued, on every invocation. -/
theorem claim_C7_get_counts_name_error :
    (∀ call, sdk_get_counts call
        = Except.error (PyNameError.name_error "GET_COUNTS_ENDPOINT")) ∧
    "GET_COUNTS_ENDPOINT" ∉ ["self"] ∧
    "GET_COUNTS_ENDPOINT" ∉ swcClientModuleNames ∧
    swcClientClassAttrs.lookup "GET_COUNTS_ENDPOINT"
        = Option.some GET_COUNTS_ENDPOINT ∧
    GET_COUNTS_ENDPOINT = "/v0/counts/" := by
  refine ⟨fun call => ?_, by decide, by decide, by rfl, rfl⟩
  rfl

/-- C8: for every configuration and entity kind, the bulk file is requested
over plain GET with redirect-following at the fixed external base URL plus
the conventional name, whose extension is parquet exactly when the
configured format lower-cases to parquet and csv otherwise. -/
theorem claim_C8_bulk_urls :
    ∀ cfg (e : BulkEntity),
      (bulkFileRequest cfg e).req_method = "GET" ∧
      (bulkFileRequest cfg e).followRedirects = true ∧
      (bulkFileRequest cfg e).url
        = BULK_FILE_BASE_URL ++ bulkFileName cfg.swc_bulk_file_format e ∧
      (pyLower cfg.swc_bulk_file_format = "parquet" →
        bulkFileName cfg.swc_bulk_file_format e
          = bulkFileBaseName e ++ ".parquet") ∧
      (pyLower cfg.swc_bulk_file_format ≠ "parquet" →
        bulkFileName cfg.swc_bulk_file_format e
          = bulkFileBaseName e ++ ".csv") := by
  intro cfg e
  refine ⟨rfl, rfl, rfl, ?_, ?_⟩
  · intro h
    simp [bulkFileName, h]
  · intro h
    simp [bulkFileName, h]

/-- C8 witness: the format string Parquet (capitalised) selects the parquet
extension case-insensitively, and csv selects the csv extension. -/
theorem claim_C8_bulk_urls_witness :
    bulkFileName "Parquet" BulkEntity.players
        = bulkFileBaseName BulkEntity.players ++ ".parquet" ∧
    bulkFileName "csv" BulkEntity.teams
        = bulkFileBaseName BulkEntity.teams ++ ".csv" :=
  ⟨(claim_C8_bulk_urls ⟨"", false, 5, "Parquet"⟩ BulkEntity.players).2.2.2.1
      (by decide),
   (claim_C8_bulk_urls ⟨"", false, 5, "csv"⟩ BulkEntity.teams).2.2.2.2
      (by decide)⟩

/-- C10: the request sent by call_api carries exactly the entries of the
parameter dict whose value is not None, each unchanged; falsy-but-not-None
values such as the integer 0 and the empty string survive, and an absent
dict stays absent. -/
theorem claim_C10_param_stripping :
    ∀ (base ep : String) (ps : List (String × PyVal)) (k : String)
      (v : PyVal),
      ((k, v) ∈ ((call_api_request base ep (Option.some ps)).params.getD [])
        ↔ (k, v) ∈ ps ∧ v ≠ PyVal.pynone) ∧
      (call_api_request base ep Option.none).params = Option.none := by
  intro base ep ps k v
  constructor
  · simp [call_api_request, stripApiParams_some, List.mem_filter]
  · rfl

/-- C10 witness: a skip of integer 0 and an empty-string last name survive
the stripping while a None first name is removed; the removal itself is
shown by applying the stripped-membership equivalence. -/
theorem claim_C10_param_stripping_witness :
    (("skip", PyVal.pyint 0)
      ∈ ((call_api_request "http://localhost:8000" LIST_PLAYERS_ENDPOINT
          (Option.some [("skip", PyVal.pyint 0),
            ("first_name", PyVal.pynone),
            ("last_name", PyVal.pystr "")])).params.getD [])) ∧
    (("last_name", PyVal.pystr "")
      ∈ ((call_api_request "http://localhost:8000" LIST_PLAYERS_ENDPOINT
          (Option.some [("skip", PyVal.pyint 0),
            ("first_name", PyVal.pynone),
            ("last_name", PyVal.pystr "")])).params.getD [])) ∧
    ¬ (("first_name", PyVal.pynone)
      ∈ ((call_api_request "http://localhost:8000" LIST_PLAYERS_ENDPOINT
          (Option.some [("skip", PyVal.pyint 0),
            ("first_name", PyVal.pynone),
            ("last_name", PyVal.pystr "")])).params.getD [])) :=
  ⟨(claim_C10_param_stripping "http://localhost:8000" LIST_PLAYERS_ENDPOINT
      _ "skip" (PyVal.pyint 0)).1.mpr ⟨by decide, by decide⟩,
   (claim_C10_param_stripping "http://localhost:8000" LIST_PLAYERS_ENDPOINT
      _ "last_name" (PyVal.pystr "")).1.mpr ⟨by decide, by decide⟩,
   fun h => absurd ((claim_C10_param_stripping "http://localhost:8000"
      LIST_PLAYERS_ENDPOINT _ "first_name" PyVal.pynone).1.mp h).2
      (by decide)⟩

/-- C2 counterexample: with backoff enabled in the configuration, a response
carrying HTTP error status 500 is returned to the caller after a single
attempt with no delay - even though the next attempt would have produced a
200 - because call_api never raises for an HTTP status (raise_for_status is
never invoked), so the configured httpx.HTTPStatusError retry trigger can
never fire; the claim that HTTP error statuses are retried and eventually
re-raised fails. -/
theorem claim_C2_counterexample :
    clientCallApi sampleConfig (fun _ => 0)
      [TransportOutcome.respond ⟨500, [], JsonValue.jnull⟩,
       TransportOutcome.respond ⟨200, [], JsonValue.jnull⟩]
      = Option.some (Except.ok ⟨500, [], JsonValue.jnull⟩, 1, 0) := by
  rfl

/-- C2 (amended): when backoff is enabled the retry wrapper installed around
call_api retries transient network-level I/O failures with exponentially
increasing delay plus jitter, each sleep capped by the remaining budget of
the configured maximum elapsed time; once the elapsed time reaches that
bound the caught failure is re-raised, never masked by a fabricated
success. HTTP responses, error statuses included, are returned on the first
attempt without retry, since call_api never raises for a status. -/
theorem claim_C2_backoff_retry :
    (∀ cfg jitter outcomes, cfg.swc_backoff = true →
      clientCallApi cfg jitter outcomes
        = backoffRun cfg.swc_backoff_max_time jitter outcomes 0 0) ∧
    (∀ (mt : Rat) (j : Nat → Rat) (r : HttpResponse),
      0 ≤ j 0 → 0 ≤ j 1 → (1 + j 0) + (2 + j 1) < mt →
      backoffRun mt j [TransportOutcome.raiseRequestError,
          TransportOutcome.raiseRequestError, TransportOutcome.respond r] 0 0
        = Option.some (Except.ok r, 3, (1 + j 0) + (2 + j 1))) ∧
    (∀ (mt : Rat) (j : Nat → Rat) rest (k : Nat) (e : Rat), mt ≤ e →
      backoffRun mt j (TransportOutcome.raiseRequestError :: rest) k e
        = Option.some (Except.error ApiError.requestError, k + 1, e)) ∧
    (∀ (mt : Rat) (j : Nat → Rat) (r : HttpResponse) rest (k : Nat)
        (e : Rat),
      backoffRun mt j (TransportOutcome.respond r :: rest) k e
        = Option.some (Except.ok r, k + 1, e)) ∧
    (∀ (mt : Rat) (j : Nat → Rat) (outs : List TransportOutcome) (k : Nat)
        (e : Rat) res t e2, e ≤ mt →
      backoffRun mt j outs k e = Option.some (res, t, e2) → e2 ≤ mt) ∧
    (∀ (mt : Rat) (j : Nat → Rat) (n k : Nat) (e : Rat) res t e2,
      backoffRun mt j (List.replicate n TransportOutcome.raiseRequestError)
          k e = Option.some (res, t, e2) →
      res = Except.error ApiError.requestError) := by
  refine ⟨?_, ?_, ?_, ?_, ?_, ?_⟩
  · intro cfg jitter outcomes h
    simp [clientCallApi, h]
  · intro mt j r h0 h1 hmt
    exact backoffRun_two_failures mt j r h0 h1 hmt
  · intro mt j rest k e h
    exact backoffRun_giveup mt j rest k e h
  · intro mt j r rest k e
    exact backoffRun_respond_step mt j r rest k e
  · intro mt j outs k e res t e2 he h
    exact backoffRun_elapsed_le mt j outs k e he res t e2 h
  · intro mt j n k e res t e2 h
    exact backoffRun_replicate_fail mt j n k e res t e2 h

/-- C2 witness: with maximum elapsed time 10 and constant jitter one half,
two network failures followed by a success return the successful response on
the third attempt after sleeping 1.5 and then 2.5 seconds. -/
theorem claim_C2_backoff_retry_witness :
    backoffRun 10 (fun _ => (1 : Rat) / 2)
      [TransportOutcome.raiseRequestError, TransportOutcome.raiseRequestError,
       TransportOutcome.respond ⟨200, [], JsonValue.jnull⟩] 0 0
      = Option.some (Except.ok ⟨200, [], JsonValue.jnull⟩, 3,
          (1 + (1 : Rat) / 2) + (2 + (1 : Rat) / 2)) :=
  claim_C2_backoff_retry.2.1 10 (fun _ => (1 : Rat) / 2)
    ⟨200, [], JsonValue.jnull⟩ (by norm_num) (by norm_num) (by norm_num)
